import Mathlib

/-!
# Event-Management wizard (`script.js`)

A shallow embedding of the client-side wizard: the Design Request that the
three step handlers fill in, the page switcher `navigateTo`, the prompt
template and the asynchronous `generateImage` routine.

Conventions of the embedding.

* JavaScript strings are Lean `String`s (sequences of Unicode scalar values).
* Every DOM read (`.value`, `:checked`, `dataset.*`) is an argument of the
  handler that performs it; every DOM write is a field of `State`.
* An `async` function is cut at its `await`: the synchronous part up to the
  `fetch` call is one function, the continuation that runs when the promise
  settles is another one that takes the outcome of the call.
* Observable effects (`alert`, `fetch`, `console.error`, `window.scrollTo`)
  are appended to logs kept in the state.
-/

namespace EventManagement

/-! ## JavaScript values and string primitives -/

/-- Values that `JSON.parse` can produce.  A number is carried by the text
that `ToString` gives for it. -/
inductive JVal where
  | null
  | bool (b : Bool)
  | num (shown : String)
  | str (s : String)
  | arr (xs : List JVal)
  | obj (props : List (String × JVal))

mutual
/-- The abstract operation `ToString` on a parsed JSON value. -/
def JVal.toJsString : JVal → String
  | .null => "null"
  | .bool true => "true"
  | .bool false => "false"
  | .num shown => shown
  | .str s => s
  | .arr xs => JVal.joinElems xs
  | .obj _ => "[object Object]"
/-- The text `Array.prototype.join` gives with its default separator. -/
def JVal.joinElems : List JVal → String
  | [] => ""
  | [x] => JVal.elemString x
  | x :: y :: rest => JVal.elemString x ++ "," ++ JVal.joinElems (y :: rest)
/-- One element inside `join`: `null` gives the empty string. -/
def JVal.elemString : JVal → String
  | .null => ""
  | .bool true => "true"
  | .bool false => "false"
  | .num shown => shown
  | .str s => s
  | .arr xs => JVal.joinElems xs
  | .obj _ => "[object Object]"
end

/-- A template-literal substitution `${x}` where `x` is a string or
`undefined` (`none`). -/
def subst : Option String → String
  | some s => s
  | none => "undefined"

/-- A template-literal substitution of a possibly `undefined` JSON value. -/
def substVal : Option JVal → String
  | some v => v.toJsString
  | none => "undefined"

/-- The call `xs.join(sep)` on an array of strings. -/
def join (sep : String) : List String → String
  | [] => ""
  | [x] => x
  | x :: y :: rest => x ++ sep ++ join sep (y :: rest)

/-- Split a sequence of characters at every occurrence of `sep`; an empty
input gives one empty piece. -/
def splitChars (sep : Char) : List Char → List (List Char)
  | [] => [[]]
  | c :: cs =>
    if c = sep then [] :: splitChars sep cs
    else
      match splitChars sep cs with
      | [] => [[c]]
      | p :: ps => (c :: p) :: ps

/-- The call `s.split(sep)` for a separator of one character. -/
def split (s : String) (sep : Char) : List String :=
  (splitChars sep s.data).map String.mk

/-- The characters that `String.prototype.trim` strips: the ECMAScript
`WhiteSpace` and `LineTerminator` code points. -/
def isWhiteSpace (c : Char) : Bool :=
  let n := c.toNat
  n = 0x09 || n = 0x0A || n = 0x0B || n = 0x0C || n = 0x0D || n = 0x20 ||
  n = 0xA0 || n = 0x1680 || (0x2000 ≤ n && n ≤ 0x200A) || n = 0x2028 ||
  n = 0x2029 || n = 0x202F || n = 0x205F || n = 0x3000 || n = 0xFEFF

/-- The call `s.trim()`. -/
def trim (s : String) : String :=
  String.mk ((s.data.dropWhile isWhiteSpace).reverse.dropWhile isWhiteSpace).reverse

/-- The call `Boolean(s)` on a string: only the empty string is falsy. -/
def truthy (s : String) : Bool :=
  s != ""

/-- The expression `a || b` on strings. -/
def orElse (a b : String) : String :=
  if truthy a then a else b

/-! ## Data model -/

/-- The object `designData.dimensions`; it starts as the empty object, whose
four properties read as `undefined`. -/
structure Dimensions where
  hallArea : Option String
  stageLength : Option String
  stageWidth : Option String
  stageHeight : Option String
  deriving DecidableEq

/-- The object `designData`. -/
structure DesignData where
  eventType : String
  dimensions : Dimensions
  extras : List String
  styles : List String
  deriving DecidableEq

/-- An element of `pages`: its `data-page` attribute (`none` when absent) and
whether its class list holds `active`. -/
structure Page where
  dataPage : Option String
  active : Bool
  deriving DecidableEq

/-- The request handed to `fetch`; `prompt` is the one property of the object
serialised into the body. -/
structure Request where
  url : String
  method : String
  contentType : String
  prompt : String
  deriving DecidableEq

/-- Everything the script reads or writes. The four `…Hidden` fields say
whether the class list of the region holds `hidden`. -/
structure State where
  designData : DesignData
  pages : List Page
  loadingHidden : Bool
  errorHidden : Bool
  imageHidden : Bool
  footerHidden : Bool
  imageSrc : Option String
  onloadSet : Bool
  alerts : List String
  requests : List Request
  errorLog : List String
  scrollResets : Nat
  deriving DecidableEq

/-- The literal assigned to `designData` when the script starts. -/
def DesignData.initial : DesignData :=
  { eventType := "", dimensions := ⟨none, none, none, none⟩, extras := [], styles := [] }

/-! ## Navigation -/

/-- The body of the `forEach` callback in `navigateTo`. -/
def Page.visit (pageId : Option String) (page : Page) : Page :=
  let page := { page with active := false }
  if page.dataPage = pageId then { page with active := true } else page

/-- The function `navigateTo`. -/
def navigateTo (pageId : Option String) (s : State) : State :=
  { s with pages := s.pages.map (Page.visit pageId), scrollResets := s.scrollResets + 1 }

/-! ## Prompt composition and generation -/

/-- The template literal that `generateImage` assigns to `prompt`. -/
def composePrompt (d : DesignData) : String :=
  ("A " ++ join ", " d.styles ++ " style " ++ d.eventType ++ " venue. ") ++
  ("Hall " ++ subst d.dimensions.hallArea ++ " m², stage " ++ subst d.dimensions.stageLength ++ "×") ++
  (subst d.dimensions.stageWidth ++ "×" ++ subst d.dimensions.stageHeight ++ " m. ") ++
  ("Includes " ++ join ", " d.extras ++ ". Photorealistic, cinematic, 8k.")

/-- The value `fetch` hands back when its promise fulfils: the `ok` flag and
what the two body readers `text()` and `json()` settle to (`error` is a
rejection, carrying its detail). -/
structure Response where
  ok : Bool
  text : Except String String
  json : Except String JVal

/-- How the promise returned by `fetch` settles. -/
inductive FetchOutcome where
  | rejected (detail : String)
  | fulfilled (res : Response)

/-- The last value bound to `key` among the members of a parsed object. -/
def getProp (key : String) (props : List (String × JVal)) : Option JVal :=
  (props.reverse.find? (fun kv => kv.1 == key)).map Prod.snd

/-- The destructuring `const { image } = v`: a `TypeError` on `null`, the
property when `v` is an object that has it, `undefined` otherwise. -/
def destructureImage : JVal → Except String (Option JVal)
  | .null => .error "TypeError: Cannot destructure property image of null"
  | .obj props => .ok (getProp "image" props)
  | _ => .ok none

/-- The synchronous part of `generateImage`, up to and including the call of
`fetch`. -/
def generateImageStart (s : State) : State :=
  let s := { s with loadingHidden := false }
  let s := { s with errorHidden := true }
  let s := { s with imageHidden := true }
  let s := { s with footerHidden := true }
  let prompt := composePrompt s.designData
  { s with requests := s.requests ++
      [{ url := "http://localhost:8000/generate", method := "POST",
         contentType := "application/json", prompt := prompt }] }

/-- The `catch` block of `generateImage`. -/
def catchBlock (err : String) (s : State) : State :=
  let s := { s with errorLog := s.errorLog ++ [err] }
  let s := { s with loadingHidden := true }
  { s with errorHidden := false }

/-- The rest of `generateImage`, run when the promise of `fetch` settles. -/
def generateImageResume (o : FetchOutcome) (s : State) : State :=
  match o with
  | .rejected detail => catchBlock detail s
  | .fulfilled res =>
    if !res.ok then
      match res.text with
      | .ok body => catchBlock body s
      | .error detail => catchBlock detail s
    else
      match res.json with
      | .error detail => catchBlock detail s
      | .ok v =>
        match destructureImage v with
        | .error detail => catchBlock detail s
        | .ok image =>
          let s := { s with imageSrc := some ("data:image/png;base64," ++ substVal image) }
          { s with onloadSet := true }

/-- One whole run of `generateImage` with nothing else in between. -/
def generateImage (o : FetchOutcome) (s : State) : State :=
  generateImageResume o (generateImageStart s)

/-- The function assigned to `generatedImage.onload`. -/
def onloadHandler (s : State) : State :=
  let s := { s with loadingHidden := true }
  let s := { s with imageHidden := false }
  { s with footerHidden := false }

/-- The `load` event of the image element: it runs the handler if one has
been assigned. -/
def imageLoad (s : State) : State :=
  if s.onloadSet then onloadHandler s else s

/-! ## Step handlers -/

/-- The `submit` listener of `homeForm`; the arguments are the values of the
dropdown and of the free-text field. -/
def homeSubmit (select custom : String) (s : State) : State :=
  let s := { s with designData := { s.designData with eventType := orElse custom select } }
  if truthy s.designData.eventType then
    navigateTo (some "dimensions") s
  else
    { s with alerts := s.alerts ++ ["Please select or specify an event type."] }

/-- The `submit` listener of `dimensionsForm`; `checked` lists the values of
the checked `extra` boxes in document order, `other` is the free text. -/
def dimensionsSubmit (hallArea stageLength stageWidth stageHeight : String)
    (checked : List String) (other : String) (s : State) : State :=
  let s := { s with designData := { s.designData with
    dimensions := { hallArea := some hallArea, stageLength := some stageLength,
                    stageWidth := some stageWidth, stageHeight := some stageHeight } } }
  let selectedExtras := checked
  let otherExtras := ((split other ',').map trim).filter truthy
  let s := { s with designData := { s.designData with extras := selectedExtras ++ otherExtras } }
  navigateTo (some "style") s

/-- The `submit` listener of `styleForm`; `checked` lists the values of the
checked `style` boxes in document order. -/
def styleSubmit (checked : List String) (s : State) : State :=
  let s := { s with designData := { s.designData with styles := checked } }
  if s.designData.styles.length > 0 then
    generateImageStart (navigateTo (some "visualization") s)
  else
    { s with alerts := s.alerts ++ ["Please select at least one design style."] }

/-! ## Event loop -/

/-- What can happen to the page: the user acts on a control, or the
environment settles a request or loads the image. -/
inductive Event where
  | backClick (target : Option String)
  | homeSubmit (select custom : String)
  | dimensionsSubmit (hallArea stageLength stageWidth stageHeight : String)
      (checked : List String) (other : String)
  | styleSubmit (checked : List String)
  | retryClick
  | fetchSettled (o : FetchOutcome)
  | imageLoad

/-- Dispatch of one event to the listeners the script has registered.  The
script looks `retryButton` up but adds no listener to it. -/
def step (s : State) : Event → State
  | .backClick target => navigateTo target s
  | .homeSubmit select custom => homeSubmit select custom s
  | .dimensionsSubmit a l w h checked other => dimensionsSubmit a l w h checked other s
  | .styleSubmit checked => styleSubmit checked s
  | .retryClick => s
  | .fetchSettled o => generateImageResume o s
  | .imageLoad => imageLoad s

/-- A sequence of events, handled one after the other. -/
def run (s : State) (es : List Event) : State :=
  es.foldl step s

/-- Whether an event is a submission of step 1. -/
def Event.isHomeSubmit : Event → Bool
  | .homeSubmit _ _ => true
  | _ => false

/-- The state when the script has just run: `pages` and the four visibility
flags come from the document. -/
def State.initial (pages : List Page) (loadingHidden errorHidden imageHidden footerHidden : Bool) :
    State :=
  { designData := DesignData.initial, pages := pages,
    loadingHidden := loadingHidden, errorHidden := errorHidden,
    imageHidden := imageHidden, footerHidden := footerHidden,
    imageSrc := none, onloadSet := false,
    alerts := [], requests := [], errorLog := [], scrollResets := 0 }

/-! ## Sample data -/

/-- The Design Request used as the worked example of the prompt template. -/
def sampleRequest : DesignData :=
  { eventType := "wedding",
    dimensions := ⟨some "200", some "10", some "5", some "3"⟩,
    extras := ["lighting", "sound"],
    styles := ["rustic", "elegant"] }

/-- A document with the four wizard pages, the first one shown. -/
def samplePages : List Page :=
  [⟨some "home", true⟩, ⟨some "dimensions", false⟩, ⟨some "style", false⟩,
   ⟨some "visualization", false⟩]

/-- The wizard right after the script has run on `samplePages`, with the
four regions hidden. -/
def sampleStart : State :=
  State.initial samplePages true true true true

/-- The wizard after a complete pass through the three steps whose request
fails on the network: the error panel is shown. -/
def sampleErrorState : State :=
  run sampleStart
    [.homeSubmit "wedding" "", .dimensionsSubmit "200" "10" "5" "3" ["lighting"] "sound",
     .styleSubmit ["rustic"], .fetchSettled (.rejected "Failed to fetch")]

/-- A success response whose body is the JSON text of an empty object. -/
def emptyObjectResponse : Response :=
  { ok := true, text := .ok "\x7b\x7d", json := .ok (.obj []) }

/-! ## Prompt template -/

/-- C1: the prompt that `generateImage` sends is the fixed template applied to
the Design Request (an unset dimension reads as `undefined`), with the four
dimension strings in the documented order once step 2 has stored them, and on
the worked example it is exactly the documented sentence. -/
theorem generateImage_prompt_template (s : State) (a l w h : String) :
    (generateImageStart s).requests = s.requests ++
      [{ url := "http://localhost:8000/generate", method := "POST",
         contentType := "application/json", prompt := composePrompt s.designData }]
    ∧ composePrompt s.designData =
        "A " ++ join ", " s.designData.styles ++ " style " ++ s.designData.eventType ++
        " venue. Hall " ++ subst s.designData.dimensions.hallArea ++ " m², stage " ++
        subst s.designData.dimensions.stageLength ++ "×" ++
        subst s.designData.dimensions.stageWidth ++ "×" ++
        subst s.designData.dimensions.stageHeight ++ " m. Includes " ++
        join ", " s.designData.extras ++ ". Photorealistic, cinematic, 8k."
    ∧ composePrompt { s.designData with dimensions := ⟨some a, some l, some w, some h⟩ } =
        "A " ++ join ", " s.designData.styles ++ " style " ++ s.designData.eventType ++
        " venue. Hall " ++ a ++ " m², stage " ++ l ++ "×" ++ w ++ "×" ++ h ++
        " m. Includes " ++ join ", " s.designData.extras ++ ". Photorealistic, cinematic, 8k."
    ∧ composePrompt sampleRequest =
        "A rustic, elegant style wedding venue. Hall 200 m², stage 10×5×3 m. Includes lighting, sound. Photorealistic, cinematic, 8k." := by
  have e1 : " venue. " ++ "Hall " = " venue. Hall " := by decide
  have e2 : " m. " ++ "Includes " = " m. Includes " := by decide
  refine ⟨rfl, ?_, ?_, by decide⟩
  · simp only [composePrompt, String.append_assoc]
    rw [← String.append_assoc " venue. " "Hall ", e1,
      ← String.append_assoc " m. " "Includes ", e2]
  · simp only [composePrompt, subst, String.append_assoc]
    rw [← String.append_assoc " venue. " "Hall ", e1,
      ← String.append_assoc " m. " "Includes ", e2]

/-! ## Navigation -/

theorem Page.visit_dataPage (t : Option String) (p : Page) :
    (Page.visit t p).dataPage = p.dataPage := by
  unfold Page.visit
  by_cases h : p.dataPage = t <;> simp [h]

theorem Page.visit_active (t : Option String) (p : Page) :
    (Page.visit t p).active = true ↔ p.dataPage = t := by
  unfold Page.visit
  by_cases h : p.dataPage = t <;> simp [h]

theorem Page.visit_eq_of_match (p : Page) : Page.visit p.dataPage p = ⟨p.dataPage, true⟩ := by
  simp [Page.visit]

theorem visit_filter_of_not_mem (t : Option String) (l : List Page)
    (h : t ∉ l.map Page.dataPage) :
    (l.map (Page.visit t)).filter (fun p => p.active) = [] := by
  rw [List.filter_eq_nil_iff]
  intro q hq
  obtain ⟨p, hp, rfl⟩ := List.mem_map.1 hq
  intro hact
  exact h (List.mem_map.2 ⟨p, hp, ((Page.visit_active t p).1 hact)⟩)

theorem visit_filter_of_mem (t : Option String) (l : List Page)
    (hnd : (l.map Page.dataPage).Nodup) (h : t ∈ l.map Page.dataPage) :
    (l.map (Page.visit t)).filter (fun p => p.active) = [⟨t, true⟩] := by
  induction l with
  | nil => simp at h
  | cons p ps ih =>
    rw [List.map_cons, List.nodup_cons] at hnd
    by_cases hp : p.dataPage = t
    · subst hp
      have hrest := visit_filter_of_not_mem p.dataPage ps hnd.1
      rw [List.map_cons, Page.visit_eq_of_match, List.filter_cons_of_pos (by rfl), hrest]
    · have hmem : t ∈ ps.map Page.dataPage := by
        rw [List.map_cons, List.mem_cons] at h
        rcases h with h | h
        · exact absurd h.symm hp
        · exact h
      have hna : ¬ ((Page.visit t p).active = true) := fun hact =>
        hp ((Page.visit_active t p).1 hact)
      rw [List.map_cons, List.filter_cons_of_neg hna]
      exact ih hnd.2 hmem

/-- C10 (as the code has it): over pages with pairwise distinct identifiers,
`navigateTo` keeps the identifiers, marks a page active exactly when its
identifier is the target, so that for a target in the set the active pages are
that page alone, and for a target outside the set no page is left active. -/
theorem navigateTo_marks_target_only (s : State) (target : Option String)
    (hnd : (s.pages.map Page.dataPage).Nodup) :
    (navigateTo target s).pages.map Page.dataPage = s.pages.map Page.dataPage
    ∧ (∀ i (h : i < s.pages.length),
        (((navigateTo target s).pages.map Page.active).getD i false = true ↔
          (s.pages.get ⟨i, h⟩).dataPage = target))
    ∧ (target ∈ s.pages.map Page.dataPage →
        (navigateTo target s).pages.filter (fun p => p.active) = [⟨target, true⟩])
    ∧ (target ∉ s.pages.map Page.dataPage →
        (navigateTo target s).pages.filter (fun p => p.active) = [])
    ∧ (navigateTo target s).designData = s.designData
    ∧ (navigateTo target s).scrollResets = s.scrollResets + 1 := by
  refine ⟨?_, ?_, visit_filter_of_mem target s.pages hnd,
    visit_filter_of_not_mem target s.pages, rfl, rfl⟩
  · simp [navigateTo, List.map_map, Function.comp_def, Page.visit_dataPage]
  · intro i h
    simp only [navigateTo, List.map_map]
    rw [List.getD_eq_getElem _ _ (by simpa using h)]
    simp [Page.visit_active]

/-- Witness of `navigateTo_marks_target_only` on the four wizard pages. -/
theorem navigateTo_marks_target_only_witness :
    (navigateTo (some "style") sampleStart).pages.filter (fun p => p.active)
      = [⟨some "style", true⟩] :=
  (navigateTo_marks_target_only sampleStart (some "style") (by decide)).2.2.1 (by decide)

/-- C10 (as stated) fails: with the first page shown, a target that no page
carries is not a no-op, it leaves no page active. -/
theorem navigateTo_unknown_target_hides_all :
    (sampleStart.pages.map Page.dataPage).Nodup
    ∧ some "checkout" ∉ sampleStart.pages.map Page.dataPage
    ∧ sampleStart.pages.filter (fun p => p.active) = [⟨some "home", true⟩]
    ∧ (navigateTo (some "checkout") sampleStart).pages.filter (fun p => p.active) = []
    ∧ (navigateTo (some "checkout") sampleStart).pages ≠ sampleStart.pages := by
  decide

/-! ## Validation failures of steps 1 and 3 -/

/-- C3 (as the code has it): a step-1 submission with both inputs empty does
not navigate (pages and scroll are as before), raises the alert, starts no
request, keeps `dimensions`, `extras` and `styles`, and stores the empty string
in `eventType`. -/
theorem homeSubmit_empty_keeps_page (s : State) :
    homeSubmit "" "" s =
      { s with designData := { s.designData with eventType := "" },
               alerts := s.alerts ++ ["Please select or specify an event type."] }
    ∧ (homeSubmit "" "" s).pages = s.pages
    ∧ (homeSubmit "" "" s).scrollResets = s.scrollResets
    ∧ (homeSubmit "" "" s).requests = s.requests
    ∧ (homeSubmit "" "" s).designData.dimensions = s.designData.dimensions
    ∧ (homeSubmit "" "" s).designData.extras = s.designData.extras
    ∧ (homeSubmit "" "" s).designData.styles = s.designData.styles
    ∧ (homeSubmit "" "" s).designData.eventType = "" := by
  have h : homeSubmit "" "" s =
      { s with designData := { s.designData with eventType := "" },
               alerts := s.alerts ++ ["Please select or specify an event type."] } := by
    simp [homeSubmit, orElse, truthy]
  refine ⟨h, ?_, ?_, ?_, ?_, ?_, ?_, ?_⟩ <;> rw [h]

/-- C3 (as stated) fails: after a valid step 1 and a click on the back button,
an empty step-1 submission stays on the first page but erases the stored
event type. -/
theorem homeSubmit_empty_erases_eventType :
    (run sampleStart [.homeSubmit "wedding" "", .backClick (some "home")]).designData.eventType
      = "wedding"
    ∧ (run sampleStart [.homeSubmit "wedding" "", .backClick (some "home"),
        .homeSubmit "" ""]).pages
      = (run sampleStart [.homeSubmit "wedding" "", .backClick (some "home")]).pages
    ∧ (run sampleStart [.homeSubmit "wedding" "", .backClick (some "home"),
        .homeSubmit "" ""]).designData
      ≠ (run sampleStart [.homeSubmit "wedding" "", .backClick (some "home")]).designData := by
  decide

/-- C4 (as the code has it): a step-3 submission with no style checked does
not navigate, starts no request and leaves the four regions alone, raises the
alert, keeps `eventType`, `dimensions` and `extras`, and stores the empty list
in `styles`. -/
theorem styleSubmit_empty_keeps_page (s : State) :
    styleSubmit [] s =
      { s with designData := { s.designData with styles := [] },
               alerts := s.alerts ++ ["Please select at least one design style."] }
    ∧ (styleSubmit [] s).pages = s.pages
    ∧ (styleSubmit [] s).scrollResets = s.scrollResets
    ∧ (styleSubmit [] s).requests = s.requests
    ∧ (styleSubmit [] s).loadingHidden = s.loadingHidden
    ∧ (styleSubmit [] s).errorHidden = s.errorHidden
    ∧ (styleSubmit [] s).imageHidden = s.imageHidden
    ∧ (styleSubmit [] s).footerHidden = s.footerHidden
    ∧ (styleSubmit [] s).designData.eventType = s.designData.eventType
    ∧ (styleSubmit [] s).designData.dimensions = s.designData.dimensions
    ∧ (styleSubmit [] s).designData.extras = s.designData.extras
    ∧ (styleSubmit [] s).designData.styles = [] := by
  have h : styleSubmit [] s =
      { s with designData := { s.designData with styles := [] },
               alerts := s.alerts ++ ["Please select at least one design style."] } := by
    simp [styleSubmit]
  refine ⟨h, ?_, ?_, ?_, ?_, ?_, ?_, ?_, ?_, ?_, ?_, ?_⟩ <;> rw [h]

/-- C4 (as stated) fails: after a complete pass that ended in the error panel
and a click back to the style page, a step-3 submission with nothing checked
stays where it is and starts no request, but empties the stored styles. -/
theorem styleSubmit_empty_erases_styles :
    (run sampleErrorState [.backClick (some "style")]).designData.styles = ["rustic"]
    ∧ (run sampleErrorState [.backClick (some "style"), .styleSubmit []]).pages
      = (run sampleErrorState [.backClick (some "style")]).pages
    ∧ (run sampleErrorState [.backClick (some "style"), .styleSubmit []]).requests
      = (run sampleErrorState [.backClick (some "style")]).requests
    ∧ (run sampleErrorState [.backClick (some "style"), .styleSubmit []]).designData
      ≠ (run sampleErrorState [.backClick (some "style")]).designData := by
  decide

/-! ## Generation outcomes -/

/-- C7: on a response whose status is not a success, a run of `generateImage`
ends with the error panel shown and the loading indicator, the image and the
footer hidden, whatever was visible before; one request has been issued and
the body of the response is the logged error detail. -/
theorem generateImage_non_ok_shows_error (s : State) (res : Response) (h : res.ok = false) :
    (generateImage (.fulfilled res) s).errorHidden = false
    ∧ (generateImage (.fulfilled res) s).loadingHidden = true
    ∧ (generateImage (.fulfilled res) s).imageHidden = true
    ∧ (generateImage (.fulfilled res) s).footerHidden = true
    ∧ (generateImage (.fulfilled res) s).requests.length = s.requests.length + 1
    ∧ (∀ body, res.text = .ok body →
        (generateImage (.fulfilled res) s).errorLog = s.errorLog ++ [body]) := by
  unfold generateImage generateImageResume
  simp only [h, Bool.not_false, if_true]
  cases ht : res.text <;>
    simp [catchBlock, generateImageStart]

/-- Witness of `generateImage_non_ok_shows_error`: a status-500 response
received while the image of an earlier run is on display. -/
theorem generateImage_non_ok_shows_error_witness :
    (generateImage (.fulfilled ⟨false, .ok "Internal Server Error", .error "SyntaxError"⟩)
        { sampleStart with imageHidden := false, footerHidden := false }).errorHidden = false
    ∧ (generateImage (.fulfilled ⟨false, .ok "Internal Server Error", .error "SyntaxError"⟩)
        { sampleStart with imageHidden := false, footerHidden := false }).imageHidden = true :=
  ⟨(generateImage_non_ok_shows_error _ _ rfl).1, (generateImage_non_ok_shows_error _ _ rfl).2.2.1⟩

/-- C8: on a success response whose JSON body is an object with the string
`payload` under `image`, once the load event of the image has fired the image
and the footer are shown, the loading indicator and the error panel are
hidden, whatever was visible before, and the source of the image is the
data-URI header followed by the payload. -/
theorem generateImage_success_shows_image (s : State) (res : Response)
    (props : List (String × JVal)) (payload : String)
    (hok : res.ok = true) (hjson : res.json = .ok (.obj props))
    (himg : getProp "image" props = some (.str payload)) :
    (imageLoad (generateImage (.fulfilled res) s)).imageHidden = false
    ∧ (imageLoad (generateImage (.fulfilled res) s)).loadingHidden = true
    ∧ (imageLoad (generateImage (.fulfilled res) s)).errorHidden = true
    ∧ (imageLoad (generateImage (.fulfilled res) s)).footerHidden = false
    ∧ (imageLoad (generateImage (.fulfilled res) s)).imageSrc
        = some ("data:image/png;base64," ++ payload)
    ∧ (imageLoad (generateImage (.fulfilled res) s)).errorLog = s.errorLog := by
  unfold generateImage generateImageResume
  simp [hok, hjson, destructureImage, himg, imageLoad, onloadHandler, generateImageStart,
    substVal, JVal.toJsString]

/-- Witness of `generateImage_success_shows_image`: a retry-like run that
starts with the error panel shown. -/
theorem generateImage_success_shows_image_witness :
    sampleErrorState.errorHidden = false
    ∧ (imageLoad (generateImage
        (.fulfilled ⟨true, .ok "", .ok (.obj [("image", .str "iVBORw0KGgo=")])⟩)
        sampleErrorState)).errorHidden = true
    ∧ (imageLoad (generateImage
        (.fulfilled ⟨true, .ok "", .ok (.obj [("image", .str "iVBORw0KGgo=")])⟩)
        sampleErrorState)).imageSrc = some ("data:image/png;base64," ++ "iVBORw0KGgo=") :=
  ⟨by decide,
   (generateImage_success_shows_image sampleErrorState _ [("image", .str "iVBORw0KGgo=")]
      "iVBORw0KGgo=" rfl rfl rfl).2.2.1,
   (generateImage_success_shows_image sampleErrorState _ [("image", .str "iVBORw0KGgo=")]
      "iVBORw0KGgo=" rfl rfl rfl).2.2.2.2.1⟩

/-- A success response whose body is not valid JSON, or is the JSON value
`null`, does end in the error panel. -/
theorem generateImage_unparsable_shows_error (s : State) (res : Response) (detail : String)
    (hok : res.ok = true) (hjson : res.json = .error detail ∨ res.json = .ok .null) :
    (generateImage (.fulfilled res) s).errorHidden = false
    ∧ (generateImage (.fulfilled res) s).loadingHidden = true := by
  unfold generateImage generateImageResume
  rcases hjson with hjson | hjson <;>
    simp [hok, hjson, destructureImage, catchBlock]

/-- C9 fails on the code: a success response whose JSON body is an object
without `image` raises nothing, so the run ends with the loading indicator
still shown and the error panel hidden, nothing is logged, the source of the
image is built from `undefined`, and a later load event would not reveal the
error panel either. -/
theorem generateImage_missing_image_stays_loading (s : State) :
    (generateImage (.fulfilled emptyObjectResponse) s).loadingHidden = false
    ∧ (generateImage (.fulfilled emptyObjectResponse) s).errorHidden = true
    ∧ (generateImage (.fulfilled emptyObjectResponse) s).errorLog = s.errorLog
    ∧ (generateImage (.fulfilled emptyObjectResponse) s).imageSrc
        = some "data:image/png;base64,undefined"
    ∧ (imageLoad (generateImage (.fulfilled emptyObjectResponse) s)).errorHidden = true := by
  refine ⟨rfl, rfl, rfl, ?_, ?_⟩
  · show some ("data:image/png;base64," ++ "undefined") = _
    exact congrArg some (by decide)
  · simp [generateImage, generateImageResume, emptyObjectResponse, destructureImage, imageLoad,
      onloadHandler, generateImageStart]

/-! ## The retry control -/

/-- C2 fails on the code: no listener is attached to the retry button, so a
click on it changes nothing; from the error state reached by a failed run the
error panel stays shown, the loading indicator stays hidden and the one
request of the failed run remains the only one. -/
theorem retryClick_starts_nothing (s : State) :
    step s .retryClick = s
    ∧ sampleErrorState.errorHidden = false
    ∧ sampleErrorState.requests.length = 1
    ∧ (run sampleErrorState [.retryClick]).requests.length = 1
    ∧ (run sampleErrorState [.retryClick]).loadingHidden = true
    ∧ (run sampleErrorState [.retryClick]).errorHidden = false :=
  ⟨rfl, by decide, by decide, by decide, by decide, by decide⟩

/-! ## Step 2: dimensions and extras -/

theorem splitChars_ne_nil (sep : Char) (l : List Char) : splitChars sep l ≠ [] := by
  cases l with
  | nil => simp [splitChars]
  | cons c cs =>
    unfold splitChars
    by_cases h : c = sep
    · simp [h]
    · simp only [h, if_false]
      cases splitChars sep cs <;> simp

theorem splitChars_no_sep (sep : Char) (l : List Char) :
    ∀ p ∈ splitChars sep l, sep ∉ p := by
  induction l with
  | nil => simp [splitChars]
  | cons c cs ih =>
    unfold splitChars
    by_cases h : c = sep
    · simp only [h, if_true]
      intro p hp
      rcases List.mem_cons.1 hp with rfl | hp
      · simp
      · exact ih p hp
    · simp only [h, if_false]
      cases hs : splitChars sep cs with
      | nil => exact absurd hs (splitChars_ne_nil sep cs)
      | cons q qs =>
        rw [hs] at ih
        intro p hp
        rcases List.mem_cons.1 hp with rfl | hp
        · intro hmem
          rcases List.mem_cons.1 hmem with hc | hq
          · exact h hc.symm
          · exact ih q (List.mem_cons_self _ _) hq
        · exact ih p (List.mem_cons_of_mem _ hp)

theorem join_cons_char (sep : String) (c : Char) (p : List Char) (ps : List (List Char)) :
    join sep (String.mk (c :: p) :: ps.map String.mk)
      = String.mk (c :: (join sep (String.mk p :: ps.map String.mk)).data) := by
  cases ps with
  | nil => simp [join]
  | cons q qs => simp [join, String.ext_iff]

theorem join_splitChars (sep : Char) (l : List Char) :
    join (String.singleton sep) ((splitChars sep l).map String.mk) = String.mk l := by
  induction l with
  | nil => simp [splitChars, join]
  | cons c cs ih =>
    unfold splitChars
    by_cases h : c = sep
    · simp only [h, if_true]
      cases hs : splitChars sep cs with
      | nil => exact absurd hs (splitChars_ne_nil sep cs)
      | cons q qs =>
        rw [hs] at ih
        simp only [List.map_cons, join] at ih ⊢
        rw [ih]
        simp [String.ext_iff, String.singleton]
    · simp only [h, if_false]
      cases hs : splitChars sep cs with
      | nil => exact absurd hs (splitChars_ne_nil sep cs)
      | cons q qs =>
        rw [hs] at ih
        simp only [List.map_cons] at ih ⊢
        rw [join_cons_char, ih]

theorem split_pieces_no_sep (t : String) (sep : Char) : ∀ p ∈ split t sep, sep ∉ p.data := by
  intro p hp
  obtain ⟨q, hq, rfl⟩ := List.mem_map.1 hp
  exact splitChars_no_sep sep t.data q hq

theorem join_split (t : String) (sep : Char) :
    join (String.singleton sep) (split t sep) = t :=
  join_splitChars sep t.data

theorem trim_decompose (s : String) :
    ∃ a b : List Char, s.data = a ++ (trim s).data ++ b
      ∧ (∀ c ∈ a, isWhiteSpace c = true) ∧ (∀ c ∈ b, isWhiteSpace c = true) := by
  refine ⟨s.data.takeWhile isWhiteSpace,
    ((s.data.dropWhile isWhiteSpace).reverse.takeWhile isWhiteSpace).reverse, ?_, ?_, ?_⟩
  · have h1 := List.takeWhile_append_dropWhile isWhiteSpace s.data
    have h2 := List.takeWhile_append_dropWhile isWhiteSpace
      (s.data.dropWhile isWhiteSpace).reverse
    have h3 := congrArg List.reverse h2
    rw [List.reverse_append, List.reverse_reverse] at h3
    simp only [trim, List.append_assoc]
    rw [h3, h1]
  · intro c hc
    exact List.mem_takeWhile_imp hc
  · intro c hc
    exact List.mem_takeWhile_imp (List.mem_reverse.1 hc)

theorem trim_head_not_space (s : String) (c : Char) (h : (trim s).data.head? = some c) :
    isWhiteSpace c = false := by
  have hpre : (trim s).data <+: s.data.dropWhile isWhiteSpace := by
    have := List.rdropWhile_prefix (fun c => isWhiteSpace c = true)
      (s.data.dropWhile isWhiteSpace)
    simpa [trim, List.rdropWhile] using this
  obtain ⟨r, hr⟩ := hpre
  have hnot := List.head?_dropWhile_not isWhiteSpace s.data
  cases hd : (trim s).data with
  | nil => rw [hd] at h; simp at h
  | cons x xs =>
    rw [hd] at h hr
    simp only [List.head?_cons, Option.some.injEq] at h
    subst h
    rw [← hr] at hnot
    simpa using hnot

theorem trim_last_not_space (s : String) (c : Char) (h : (trim s).data.getLast? = some c) :
    isWhiteSpace c = false := by
  have hnot := List.head?_dropWhile_not isWhiteSpace (s.data.dropWhile isWhiteSpace).reverse
  simp only [trim, List.getLast?_reverse] at h
  rw [h] at hnot
  simpa using hnot

/-- C5: after the step-2 handler, `extras` is the checked values followed by
the pieces of the free text between its commas, each trimmed, without the
pieces that trim to nothing, in that order.  The pieces hold no comma and give
the text back when joined by commas; trimming removes white space at the two
ends only; no entry kept from the free text is empty or starts or ends with
white space.  The handler stores the four field values as they are, touches
neither `eventType` nor `styles`, and always navigates to the style page. -/
theorem dimensionsSubmit_extras (s : State) (a l w h : String) (cs : List String) (t : String) :
    (dimensionsSubmit a l w h cs t s).designData.extras
      = cs ++ ((split t ',').map trim).filter (fun e => decide (e ≠ ""))
    ∧ join "," (split t ',') = t
    ∧ (∀ p ∈ split t ',', ',' ∉ p.data)
    ∧ (∀ p : String, ∃ x y : List Char, p.data = x ++ (trim p).data ++ y
        ∧ (∀ c ∈ x, isWhiteSpace c = true) ∧ (∀ c ∈ y, isWhiteSpace c = true))
    ∧ (∀ e ∈ ((split t ',').map trim).filter (fun e => decide (e ≠ "")),
        e ≠ "" ∧ (∀ c, e.data.head? = some c → isWhiteSpace c = false)
          ∧ (∀ c, e.data.getLast? = some c → isWhiteSpace c = false))
    ∧ (dimensionsSubmit a l w h cs t s).pages = s.pages.map (Page.visit (some "style"))
    ∧ (∀ p ∈ (dimensionsSubmit a l w h cs t s).pages,
        (p.active = true ↔ p.dataPage = some "style"))
    ∧ (dimensionsSubmit a l w h cs t s).scrollResets = s.scrollResets + 1
    ∧ (dimensionsSubmit a l w h cs t s).alerts = s.alerts
    ∧ (dimensionsSubmit a l w h cs t s).designData.dimensions
        = ⟨some a, some l, some w, some h⟩
    ∧ (dimensionsSubmit a l w h cs t s).designData.eventType = s.designData.eventType
    ∧ (dimensionsSubmit a l w h cs t s).designData.styles = s.designData.styles := by
  have hf : (fun e : String => decide (e ≠ "")) = truthy := by
    funext e
    by_cases he : e = "" <;> simp [truthy, he]
  refine ⟨?_, join_split t ',', split_pieces_no_sep t ',', trim_decompose, ?_, rfl, ?_,
    rfl, rfl, rfl, rfl, rfl⟩
  · rw [hf]; rfl
  · intro e he
    obtain ⟨hmem, hne⟩ := List.mem_filter.1 he
    obtain ⟨p, _, rfl⟩ := List.mem_map.1 hmem
    exact ⟨by simpa using hne, trim_head_not_space p, trim_last_not_space p⟩
  · intro p hp
    have hp2 : p ∈ s.pages.map (Page.visit (some "style")) := hp
    obtain ⟨q, _, rfl⟩ := List.mem_map.1 hp2
    rw [Page.visit_active, Page.visit_dataPage]

/-- Witness of `dimensionsSubmit_extras`: one checked box and a free text
with padded, empty and two-word entries. -/
theorem dimensionsSubmit_extras_witness :
    (dimensionsSubmit "200" "10" "5" "3" ["lighting"] " sound , ,fog machine,"
        sampleStart).designData.extras = ["lighting", "sound", "fog machine"] :=
  (dimensionsSubmit_extras sampleStart "200" "10" "5" "3" ["lighting"]
    " sound , ,fog machine,").1.trans (by decide)

/-! ## The event type that reaches the prompt -/

theorem generateImageResume_designData (o : FetchOutcome) (s : State) :
    (generateImageResume o s).designData = s.designData := by
  unfold generateImageResume
  cases o with
  | rejected detail => rfl
  | fulfilled res =>
    simp only
    split
    · split <;> rfl
    · split
      · rfl
      · split <;> rfl

theorem step_eventType (s : State) (e : Event) (h : e.isHomeSubmit = false) :
    (step s e).designData.eventType = s.designData.eventType := by
  cases e with
  | backClick target => rfl
  | homeSubmit select custom => simp [Event.isHomeSubmit] at h
  | dimensionsSubmit a l w h checked other => rfl
  | styleSubmit checked =>
    simp only [step, styleSubmit]
    split <;> rfl
  | retryClick => rfl
  | fetchSettled o => simp only [step, generateImageResume_designData]
  | imageLoad =>
    simp only [step, imageLoad]
    split <;> rfl

theorem run_eventType (es : List Event) (s : State)
    (h : ∀ e ∈ es, e.isHomeSubmit = false) :
    (run s es).designData.eventType = s.designData.eventType := by
  induction es generalizing s with
  | nil => rfl
  | cons e es ih =>
    have h1 := step_eventType s e (h e (List.mem_cons_self _ _))
    have h2 := ih (step s e) (fun x hx => h x (List.mem_cons_of_mem _ hx))
    simp only [run, List.foldl_cons] at h2 ⊢
    rw [h2, h1]

theorem homeSubmit_eventType (select custom : String) (s : State) :
    (homeSubmit select custom s).designData.eventType
      = if custom = "" then select else custom := by
  by_cases hc : custom = ""
  · by_cases hs : select = "" <;> simp [homeSubmit, orElse, truthy, navigateTo, hc, hs]
  · simp [homeSubmit, orElse, truthy, navigateTo, hc]

theorem styleSubmit_nonempty (checked : List String) (s : State) (h : checked ≠ []) :
    styleSubmit checked s = generateImageStart (navigateTo (some "visualization")
      { s with designData := { s.designData with styles := checked } }) := by
  have hlen : checked.length > 0 := List.length_pos.2 h
  simp [styleSubmit, hlen]

/-- C6: whatever was handled before, if a step-1 submission is followed by
events among which there is no other step-1 submission and then by a step-3
submission with at least one style, the request that goes out carries the
prompt composed from a Design Request whose `eventType` is the free text of
that step-1 submission when it is not empty and its dropdown value otherwise;
and that step-1 submission navigates to the dimensions page when this value
is not empty, and stays on its page with an alert when it is empty. -/
theorem eventType_in_prompt (s : State) (select custom : String) (es : List Event)
    (checked : List String) (hes : ∀ e ∈ es, e.isHomeSubmit = false) (hchk : checked ≠ []) :
    (run s (.homeSubmit select custom :: es ++ [.styleSubmit checked])).designData.eventType
      = (if custom = "" then select else custom)
    ∧ (run s (.homeSubmit select custom :: es ++ [.styleSubmit checked])).designData.styles
      = checked
    ∧ (run s (.homeSubmit select custom :: es ++ [.styleSubmit checked])).requests.getLast?
      = some { url := "http://localhost:8000/generate", method := "POST",
               contentType := "application/json",
               prompt := composePrompt
                 (run s (.homeSubmit select custom :: es ++ [.styleSubmit checked])).designData }
    ∧ (∃ rest : String,
        composePrompt
            (run s (.homeSubmit select custom :: es ++ [.styleSubmit checked])).designData
          = "A " ++ join ", " checked ++ " style " ++ (if custom = "" then select else custom)
              ++ " venue. " ++ rest)
    ∧ ((if custom = "" then select else custom) ≠ "" →
        (homeSubmit select custom s).pages = s.pages.map (Page.visit (some "dimensions"))
        ∧ (homeSubmit select custom s).scrollResets = s.scrollResets + 1
        ∧ (homeSubmit select custom s).alerts = s.alerts)
    ∧ ((if custom = "" then select else custom) = "" →
        (homeSubmit select custom s).pages = s.pages
        ∧ (homeSubmit select custom s).scrollResets = s.scrollResets
        ∧ (homeSubmit select custom s).alerts
            = s.alerts ++ ["Please select or specify an event type."]) := by
  have hrun : run s (.homeSubmit select custom :: es ++ [.styleSubmit checked])
      = styleSubmit checked (run (homeSubmit select custom s) es) := by
    simp [run, List.foldl_append, step]
  have hev : (run (homeSubmit select custom s) es).designData.eventType
      = (if custom = "" then select else custom) := by
    rw [run_eventType es _ hes, homeSubmit_eventType]
  rw [hrun, styleSubmit_nonempty checked _ hchk]
  refine ⟨hev, rfl, ?_, ?_, ?_, ?_⟩
  · simp [generateImageStart, navigateTo]
  · refine ⟨"Hall " ++ subst (run (homeSubmit select custom s) es).designData.dimensions.hallArea
      ++ " m², stage "
      ++ subst (run (homeSubmit select custom s) es).designData.dimensions.stageLength ++ "×"
      ++ subst (run (homeSubmit select custom s) es).designData.dimensions.stageWidth ++ "×"
      ++ subst (run (homeSubmit select custom s) es).designData.dimensions.stageHeight ++ " m. "
      ++ "Includes " ++ join ", " (run (homeSubmit select custom s) es).designData.extras
      ++ ". Photorealistic, cinematic, 8k.", ?_⟩
    simp only [composePrompt, generateImageStart, navigateTo, String.append_assoc, hev]
  · intro hne
    have ht : truthy (orElse custom select) = true := by
      by_cases hc : custom = ""
      · simp only [hc, if_true] at hne
        simp [orElse, truthy, hc, hne]
      · simp [orElse, truthy, hc]
    simp [homeSubmit, ht, navigateTo]
  · intro he
    have hc : custom = "" := by
      by_cases hc : custom = ""
      · exact hc
      · simp [hc] at he
    have hs : select = "" := by simpa [hc] using he
    simp [homeSubmit, orElse, truthy, hc, hs]

/-- Witness of `eventType_in_prompt`: dropdown `wedding`, no free text, then
steps 2 and 3. -/
theorem eventType_in_prompt_witness :
    (run sampleStart (.homeSubmit "wedding" "" ::
        [.dimensionsSubmit "200" "10" "5" "3" ["lighting"] "sound"] ++
        [.styleSubmit ["rustic"]])).designData.eventType = "wedding" :=
  (eventType_in_prompt sampleStart "wedding" ""
    [.dimensionsSubmit "200" "10" "5" "3" ["lighting"] "sound"] ["rustic"]
    (by simp [Event.isHomeSubmit]) (by simp)).1

end EventManagement
